import Mathlib

/-!
Verification development for the Redis-backed MCP session store
(`storage.RedisSessionStore`). The repository contains three near-duplicate
variants of the component; the shallow embedding below covers:

* the `mcp.SessionState` variant (methods `Load`, `Store`, `Delete`),
* the generic `RedisSessionStore[T]` variant (methods `Get`, `Set`,
  `Delete`, `All`, `Reset`),
* the construction path `NewRedisSessionStore` (defaults, liveness probe,
  owner validation), shared by all variants,
* a lock-discipline transcription of the hot-tier map accesses of the
  `StreamableServerTransport` variant (methods `Exists`, `Get`, `Set`,
  `Delete`, `Range`).

The Redis client is modelled as an association list of key/value pairs
together with a `failing` flag: when the flag is set every command returns
a connection error (this is the failure mode the Go code maps to its
storage errors); when it is clear, `Get` on an absent key returns the
distinguished `redis.Nil` result, modelled as `.absent`.
-/

namespace SessionStore

/-- Association-list lookup, modelling a Go map read `m[k]`. -/
def alookup {α : Type} (k : String) : List (String × α) → Option α
  | [] => none
  | (k', v) :: rest => if k' = k then some v else alookup k rest

/-- Association-list erase, modelling a Go map delete `delete(m, k)`. -/
def aerase {α : Type} (k : String) (l : List (String × α)) : List (String × α) :=
  l.filter (fun p => p.1 ≠ k)

/-- Association-list insert/overwrite, modelling a Go map write `m[k] = v`. -/
def ainsert {α : Type} (k : String) (v : α) (l : List (String × α)) :
    List (String × α) :=
  (k, v) :: aerase k l

theorem aerase_cons {α : Type} (k : String) (p : String × α)
    (rest : List (String × α)) :
    aerase k (p :: rest) = if p.1 = k then aerase k rest else p :: aerase k rest := by
  by_cases hp : p.1 = k <;> simp [aerase, List.filter_cons, hp]

theorem alookup_aerase_self {α : Type} (k : String) (l : List (String × α)) :
    alookup k (aerase k l) = none := by
  induction l with
  | nil => rfl
  | cons p rest ih =>
    rw [aerase_cons]
    by_cases hp : p.1 = k
    · rw [if_pos hp]; exact ih
    · rw [if_neg hp]; simp [alookup, hp, ih]

theorem alookup_aerase_ne {α : Type} {k x : String} (h : k ≠ x)
    (l : List (String × α)) : alookup x (aerase k l) = alookup x l := by
  induction l with
  | nil => rfl
  | cons p rest ih =>
    rw [aerase_cons]
    by_cases hp : p.1 = k
    · have hpx : p.1 ≠ x := by rw [hp]; exact h
      rw [if_pos hp, ih]
      simp [alookup, hpx]
    · rw [if_neg hp]
      by_cases hpx : p.1 = x
      · simp [alookup, hpx]
      · simp [alookup, hpx, ih]

theorem alookup_ainsert_self {α : Type} (k : String) (v : α)
    (l : List (String × α)) : alookup k (ainsert k v l) = some v := by
  simp [ainsert, alookup]

theorem alookup_ainsert_ne {α : Type} {k x : String} (h : k ≠ x) (v : α)
    (l : List (String × α)) : alookup x (ainsert k v l) = alookup x l := by
  simp [ainsert, alookup, h]
  exact alookup_aerase_ne h l

/-- The serializable session record. `mcp.SessionState` is external to the
repository; the fields that matter to the cache are opaque, so the record is
modelled by its JSON-serializable payload, here reduced to the session
identifier exactly as the repository's own placeholder `sessionData`
struct does. -/
structure SessionState where
  sessionId : String
deriving DecidableEq

/-- Model of `json.Marshal` on the session record: for this struct shape
marshalling cannot fail and is injective. -/
def encodeSessionState (s : SessionState) : String :=
  s.sessionId

/-- Model of `json.Unmarshal` into the session record. -/
def decodeSessionState (d : String) : Option SessionState :=
  some ⟨d⟩

/-- The durable tier: the key/value contents of the Redis database plus a
connection-failure flag. When `failing` is set, every command returns an
error, which is the durable-tier failure mode the Go code wraps into its
returned errors. -/
structure RedisState where
  data : List (String × String)
  failing : Bool
deriving DecidableEq

/-- Result of `client.Get`: a value, the distinguished `redis.Nil`
(key absent), or a command error. -/
inductive RedisGetResult
  | found (val : String)
  | absent
  | err
deriving DecidableEq

def redisGet (k : String) (r : RedisState) : RedisGetResult :=
  if r.failing then .err
  else
    match alookup k r.data with
    | some v => .found v
    | none => .absent

/-- `client.Set k v ttl`: `none` models a command error (TTL-based expiry is
not modelled; no claim concerns it). -/
def redisSet (k v : String) (r : RedisState) : Option RedisState :=
  if r.failing then none
  else some { r with data := ainsert k v r.data }

/-- `client.Del k`: deleting an absent key succeeds (Redis reports the number
of removed keys, not an error). `none` models a command error. -/
def redisDel (k : String) (r : RedisState) : Option RedisState :=
  if r.failing then none
  else some { r with data := aerase k r.data }

/-- The state of a `RedisSessionStore` (the `mcp.SessionState` variant):
key prefix, the Redis client state, and the hot-tier map
`activeSessions`. -/
structure StoreState where
  pre : String
  redis : RedisState
  activeSessions : List (String × SessionState)
deriving DecidableEq

/-- `getKey`: the configured prefix concatenated with the session id. -/
def getKey (st : StoreState) (sessionID : String) : String :=
  st.pre ++ sessionID

/-- Outcome of `Load`: success, `fs.ErrNotExist` (not found), a wrapped
Redis error, or a wrapped unmarshal error. -/
inductive LoadOutcome
  | ok (s : SessionState)
  | notFound
  | storageError
  | deserializationError
deriving DecidableEq

/-- `RedisSessionStore.Load`: hot-tier check under the read lock, then the
durable get; `redis.Nil` maps to `fs.ErrNotExist`; on a durable hit the
record is unmarshalled and installed in the hot tier under the write
lock. -/
def loadOp (sessionID : String) (st : StoreState) : LoadOutcome × StoreState :=
  match alookup sessionID st.activeSessions with
  | some s => (.ok s, st)
  | none =>
    match redisGet (getKey st sessionID) st.redis with
    | .err => (.storageError, st)
    | .absent => (.notFound, st)
    | .found d =>
      match decodeSessionState d with
      | none => (.deserializationError, st)
      | some s =>
        (.ok s, { st with activeSessions := ainsert sessionID s st.activeSessions })

/-- Outcome of `Store`. -/
inductive StoreOutcome
  | ok
  | serializationError
  | storageError
deriving DecidableEq

/-- `RedisSessionStore.Store`: marshal the record (cannot fail for this
struct shape), write it to Redis with the TTL, and only on success install
the record in the hot tier under the write lock. -/
def storeOp (sessionID : String) (s : SessionState) (st : StoreState) :
    StoreOutcome × StoreState :=
  let d := encodeSessionState s
  match redisSet (getKey st sessionID) d st.redis with
  | none => (.storageError, st)
  | some r =>
    (.ok, { st with redis := r,
                    activeSessions := ainsert sessionID s st.activeSessions })

/-- Outcome of `Delete`. -/
inductive DeleteOutcome
  | ok
  | storageError
deriving DecidableEq

/-- `RedisSessionStore.Delete`: delete the durable key; on a Redis error the
method returns the wrapped error immediately, so the hot-tier removal only
happens after a successful durable delete. -/
def deleteOp (sessionID : String) (st : StoreState) : DeleteOutcome × StoreState :=
  match redisDel (getKey st sessionID) st.redis with
  | none => (.storageError, st)
  | some r =>
    (.ok, { st with redis := r,
                    activeSessions := aerase sessionID st.activeSessions })

end SessionStore

namespace GenericStore

open SessionStore

/-- A live transport of the generic variant, instantiated at the concrete
`mcp.StreamableServerTransport` the code constructs on a durable hit (so the
`any(transport).(T)` cast succeeds). It carries the session id it was created
with via `mcp.NewStreamableServerTransport(sessionData.SessionID, nil)`. -/
structure Transport where
  sessionId : String
deriving DecidableEq

/-- Model of `json.Marshal` on the placeholder `sessionData` struct: only the
session id is serialized. -/
def encodeSessionData (sessionID : String) : String :=
  sessionID

/-- Model of `json.Unmarshal` into `sessionData`, recovering the stored
session id. -/
def decodeSessionData (d : String) : Option String :=
  some d

/-- The state of the generic `RedisSessionStore[T]` variant: key prefix,
Redis client state, and the hot-tier map `activeSessions` of live
transports. -/
structure GStoreState where
  pre : String
  redis : RedisState
  activeSessions : List (String × Transport)
deriving DecidableEq

/-- Outcome of the generic `Get`: a transport, the zero value with a nil
error (durable miss), or one of the wrapped errors. -/
inductive GGetOutcome
  | ok (t : Transport)
  | okZero
  | storageError
  | deserializationError
  | connectError
deriving DecidableEq

/-- `RedisSessionStore[T].Get`: hot-tier check under the read lock; on a
durable hit a fresh transport is created, connected to the server
(`connectOk` models the outcome of `server.Connect`), and installed in the
hot tier under the write lock. A durable miss returns the zero value with a
nil error. -/
def ggetOp (connectOk : Bool) (sessionID : String) (st : GStoreState) :
    GGetOutcome × GStoreState :=
  match alookup sessionID st.activeSessions with
  | some t => (.ok t, st)
  | none =>
    match redisGet (st.pre ++ sessionID) st.redis with
    | .err => (.storageError, st)
    | .absent => (.okZero, st)
    | .found d =>
      match decodeSessionData d with
      | none => (.deserializationError, st)
      | some sid =>
        if connectOk then
          (.ok ⟨sid⟩,
           { st with activeSessions := ainsert sessionID ⟨sid⟩ st.activeSessions })
        else (.connectError, st)

/-- `RedisSessionStore[T].Set`: marshal the placeholder record, write it to
Redis, and only on success install the transport in the hot tier. -/
def gsetOp (sessionID : String) (t : Transport) (st : GStoreState) :
    StoreOutcome × GStoreState :=
  let d := encodeSessionData sessionID
  match redisSet (st.pre ++ sessionID) d st.redis with
  | none => (.storageError, st)
  | some r =>
    (.ok, { st with redis := r,
                    activeSessions := ainsert sessionID t st.activeSessions })

/-- `RedisSessionStore[T].Delete`: same shape as the `SessionState`
variant. -/
def gdeleteOp (sessionID : String) (st : GStoreState) : DeleteOutcome × GStoreState :=
  match redisDel (st.pre ++ sessionID) st.redis with
  | none => (.storageError, st)
  | some r =>
    (.ok, { st with redis := r,
                    activeSessions := aerase sessionID st.activeSessions })

/-- `RedisSessionStore[T].All`: iterates over the hot tier under the read
lock; the state is unchanged and the sessions are yielded in map order. -/
def gallOp (st : GStoreState) : List Transport × GStoreState :=
  (st.activeSessions.map (fun p => p.2), st)

/-- `RedisSessionStore[T].Reset`: replaces the hot-tier map with a fresh
empty map under the write lock; it never returns an error and does not touch
the durable tier. -/
def gresetOp (st : GStoreState) : DeleteOutcome × GStoreState :=
  (.ok, { st with activeSessions := [] })

end GenericStore

namespace Construction

open SessionStore

/-- `RedisSessionStoreConfig` as the construction sees it. The `Server`
pointer is external; all that the construction inspects is whether it is
nil, captured by `serverPresent`. `ttl` is a Go `time.Duration` in
nanoseconds; the zero value means unset. -/
structure StoreConfig where
  addr : String
  password : String
  db : Int
  pre : String
  ttl : Int
  serverPresent : Bool
deriving DecidableEq

/-- `time.Hour` in nanoseconds. -/
def hourNs : Int := 3600000000000

/-- The fields of the `RedisSessionStore` value the construction returns:
the client options it was built with, the prefix and TTL in use, and the
freshly allocated empty hot-tier map. -/
structure StoreHandle where
  addr : String
  password : String
  db : Int
  pre : String
  ttl : Int
  activeSessions : List (String × SessionState)
deriving DecidableEq

/-- The two construction failure modes, with the message text the Go code
produces (the Redis ping error wrapped by the connection message is
external, so only the fixed wrapping text is carried). -/
inductive NewStoreError
  | connectionError (msg : String)
  | configurationError (msg : String)
deriving DecidableEq

/-- `NewRedisSessionStore`: apply the documented defaults for unset address,
prefix and TTL; build the client; probe the store with a 5-second timeout
(`pingOk` models the probe outcome); only then validate that the server
reference is present; finally return the store with an empty hot tier. -/
def newRedisSessionStore (pingOk : Bool) (config : StoreConfig) :
    Except NewStoreError StoreHandle :=
  let addr := if config.addr = "" then "localhost:6379" else config.addr
  let pre := if config.pre = "" then "mcp:session:" else config.pre
  let ttl := if config.ttl = 0 then hourNs else config.ttl
  if !pingOk then .error (.connectionError "failed to connect to Redis")
  else if !config.serverPresent then
    .error (.configurationError "MCP server reference is required")
  else
    .ok { addr := addr, password := config.password, db := config.db,
          pre := pre, ttl := ttl, activeSessions := [] }

end Construction

namespace LockModel

/-- The lock mode held while the hot-tier map is touched: no lock, the
shared (RLock) mode, or the exclusive (Lock) mode. -/
inductive LockMode
  | noLock
  | shared
  | exclusive
deriving DecidableEq

/-- Whether a hot-tier map access reads or mutates the map. -/
inductive MapAccessKind
  | read
  | write
deriving DecidableEq

/-- One access to the hot-tier map together with the lock mode held at that
program point. -/
structure MapAccess where
  mode : LockMode
  kind : MapAccessKind
deriving DecidableEq

/-- The discipline the spec requires: read-only lookups hold the shared
mode, mutations hold the exclusive mode. -/
def accessDisciplined (a : MapAccess) : Bool :=
  match a.kind with
  | .read => a.mode = LockMode.shared
  | .write => a.mode = LockMode.exclusive

/-- Hot-tier accesses of `RedisSessionStore.Exists` (transport variant):
the map read `r.activeSessions[sessionID]` happens before any lock is
taken. -/
def existsHotAccesses : List MapAccess :=
  [⟨.noLock, .read⟩]

/-- Hot-tier accesses of `RedisSessionStore.Get` (transport variant): the
hot-tier check under `RLock`, then on the miss path the insert under
`Lock`. -/
def getHotAccesses : List MapAccess :=
  [⟨.shared, .read⟩, ⟨.exclusive, .write⟩]

/-- Hot-tier accesses of `RedisSessionStore.Set`: the insert under `Lock`. -/
def setHotAccesses : List MapAccess :=
  [⟨.exclusive, .write⟩]

/-- Hot-tier accesses of `RedisSessionStore.Delete`: the removal under
`Lock`. -/
def deleteHotAccesses : List MapAccess :=
  [⟨.exclusive, .write⟩]

/-- Hot-tier accesses of `RedisSessionStore.Range`: the iteration under
`RLock`. -/
def rangeHotAccesses : List MapAccess :=
  [⟨.shared, .read⟩]

end LockModel

open SessionStore GenericStore Construction LockModel

/-- A hot-tier entry surviving an `ainsert` under a possibly different key. -/
theorem alookup_ainsert_isSome {α : Type} (k x : String) (v : α)
    (l : List (String × α)) (h : (alookup x l).isSome = true) :
    (alookup x (ainsert k v l)).isSome = true := by
  by_cases hkx : k = x
  · subst hkx; simp [alookup_ainsert_self]
  · rw [alookup_ainsert_ne hkx]; exact h

/-- Claim C1, counterexample: with the durable tier failing and the hot tier
holding an entry for "a", `Delete` returns the storage error and the
in-memory entry for "a" is still present afterwards — the hot-tier removal
is not performed when the durable delete fails. -/
theorem delete_durable_failure_keeps_hot_entry :
    (deleteOp "a"
        ⟨"mcp:session:", ⟨[("mcp:session:a", "a")], true⟩, [("a", ⟨"a"⟩)]⟩).1
      = DeleteOutcome.storageError ∧
    alookup "a"
        (deleteOp "a"
          ⟨"mcp:session:", ⟨[("mcp:session:a", "a")], true⟩,
           [("a", ⟨"a"⟩)]⟩).2.activeSessions
      = some ⟨"a"⟩ := by
  constructor <;> rfl

/-- Claim C1, amended: when the durable-tier delete fails with a
StorageError, `Delete` returns immediately and the whole store state — in
particular the hot-tier entry for the identifier — is left unchanged; the
hot-tier removal happens exactly when the durable delete succeeds, and then
the identifier is absent from the hot tier afterwards. -/
theorem delete_hot_removal_requires_durable_success
    (st : StoreState) (sessionID : String) :
    (st.redis.failing = true →
      deleteOp sessionID st = (.storageError, st)) ∧
    (st.redis.failing = false →
      (deleteOp sessionID st).1 = .ok ∧
      alookup sessionID (deleteOp sessionID st).2.activeSessions = none) := by
  constructor
  · intro h
    simp [deleteOp, redisDel, h]
  · intro h
    refine ⟨?_, ?_⟩
    · simp [deleteOp, redisDel, h]
    · simp [deleteOp, redisDel, h, alookup_aerase_self]

/-- Witness for the amended C1 theorem at a concrete store. -/
theorem delete_hot_removal_requires_durable_success_witness :
    (deleteOp "a" ⟨"mcp:session:", ⟨[], false⟩, [("a", ⟨"a"⟩)]⟩).1 = .ok ∧
    alookup "a"
        (deleteOp "a"
          ⟨"mcp:session:", ⟨[], false⟩, [("a", ⟨"a"⟩)]⟩).2.activeSessions
      = none :=
  (delete_hot_removal_requires_durable_success
    ⟨"mcp:session:", ⟨[], false⟩, [("a", ⟨"a"⟩)]⟩ "a").2 rfl

/-- Claim C2: `Store` either applies to both tiers (durable write recorded
under the namespaced key, hot-tier entry installed) or fails with the
storage error leaving the whole state — in particular the hot-tier map —
exactly as it was. -/
theorem store_applies_to_both_tiers_or_neither
    (sessionID : String) (s : SessionState) (st : StoreState) :
    ((storeOp sessionID s st).1 = .storageError ∧
      (storeOp sessionID s st).2 = st) ∨
    ((storeOp sessionID s st).1 = .ok ∧
      (storeOp sessionID s st).2.activeSessions
        = ainsert sessionID s st.activeSessions ∧
      (storeOp sessionID s st).2.redis.data
        = ainsert (getKey st sessionID) (encodeSessionState s) st.redis.data) := by
  cases h : st.redis.failing
  · right
    refine ⟨?_, ?_, ?_⟩ <;> simp [storeOp, redisSet, h]
  · left
    refine ⟨?_, ?_⟩ <;> simp [storeOp, redisSet, h]

/-- Claim C3: for an identifier absent from the hot tier and from the
durable tier (with the durable tier reachable, so the get comes back with
the distinguished key-absent result), `Load` returns the distinguished
NotFound outcome and leaves the state unchanged. -/
theorem load_never_stored_returns_not_found
    (st : StoreState) (sessionID : String)
    (hhot : alookup sessionID st.activeSessions = none)
    (hdur : alookup (getKey st sessionID) st.redis.data = none)
    (hup : st.redis.failing = false) :
    loadOp sessionID st = (.notFound, st) := by
  simp [loadOp, hhot, redisGet, hup, hdur]

/-- Witness for the C3 theorem on the freshly constructed empty store. -/
theorem load_never_stored_returns_not_found_witness :
    loadOp "a" ⟨"mcp:session:", ⟨[], false⟩, []⟩
      = (.notFound, ⟨"mcp:session:", ⟨[], false⟩, []⟩) :=
  load_never_stored_returns_not_found ⟨"mcp:session:", ⟨[], false⟩, []⟩ "a"
    rfl rfl rfl

/-- Claim C4: a successful `Store` of record `s` immediately followed by
`Load` of the same identifier succeeds and returns exactly `s` (the hot-tier
entry installed by `Store`), leaving the state unchanged. -/
theorem store_then_load_round_trip
    (st : StoreState) (sessionID : String) (s : SessionState)
    (hup : st.redis.failing = false) :
    (storeOp sessionID s st).1 = .ok ∧
    loadOp sessionID (storeOp sessionID s st).2
      = (.ok s, (storeOp sessionID s st).2) := by
  have h1 : (storeOp sessionID s st).2.activeSessions
      = ainsert sessionID s st.activeSessions := by
    simp [storeOp, redisSet, hup]
  constructor
  · simp [storeOp, redisSet, hup]
  · simp [loadOp, h1, alookup_ainsert_self]

/-- Witness for the C4 theorem at a concrete store and record. -/
theorem store_then_load_round_trip_witness :
    (storeOp "a" ⟨"v"⟩ ⟨"mcp:session:", ⟨[], false⟩, []⟩).1 = .ok ∧
    loadOp "a" (storeOp "a" ⟨"v"⟩ ⟨"mcp:session:", ⟨[], false⟩, []⟩).2
      = (.ok ⟨"v"⟩, (storeOp "a" ⟨"v"⟩ ⟨"mcp:session:", ⟨[], false⟩, []⟩).2) :=
  store_then_load_round_trip ⟨"mcp:session:", ⟨[], false⟩, []⟩ "a" ⟨"v"⟩ rfl

/-- Claim C5: with the durable tier reachable, `Delete` twice in a row on
any starting state (the identifier need never have been stored) succeeds
both times, and afterwards the identifier is absent from both the durable
tier and the hot tier. -/
theorem delete_idempotent
    (st : StoreState) (sessionID : String)
    (hup : st.redis.failing = false) :
    (deleteOp sessionID st).1 = .ok ∧
    (deleteOp sessionID (deleteOp sessionID st).2).1 = .ok ∧
    alookup (getKey st sessionID)
        (deleteOp sessionID (deleteOp sessionID st).2).2.redis.data = none ∧
    alookup sessionID
        (deleteOp sessionID (deleteOp sessionID st).2).2.activeSessions = none := by
  refine ⟨?_, ?_, ?_, ?_⟩ <;>
    simp [deleteOp, redisDel, hup, getKey, alookup_aerase_self]

/-- Witness for the C5 theorem at a concrete store holding "a" in both
tiers. -/
theorem delete_idempotent_witness :
    (deleteOp "a"
        ⟨"mcp:session:", ⟨[("mcp:session:a", "a")], false⟩, [("a", ⟨"a"⟩)]⟩).1
      = .ok ∧
    (deleteOp "a"
        (deleteOp "a"
          ⟨"mcp:session:", ⟨[("mcp:session:a", "a")], false⟩,
           [("a", ⟨"a"⟩)]⟩).2).1 = .ok ∧
    alookup
        (getKey ⟨"mcp:session:", ⟨[("mcp:session:a", "a")], false⟩,
          [("a", ⟨"a"⟩)]⟩ "a")
        (deleteOp "a"
          (deleteOp "a"
            ⟨"mcp:session:", ⟨[("mcp:session:a", "a")], false⟩,
             [("a", ⟨"a"⟩)]⟩).2).2.redis.data = none ∧
    alookup "a"
        (deleteOp "a"
          (deleteOp "a"
            ⟨"mcp:session:", ⟨[("mcp:session:a", "a")], false⟩,
             [("a", ⟨"a"⟩)]⟩).2).2.activeSessions = none :=
  delete_idempotent
    ⟨"mcp:session:", ⟨[("mcp:session:a", "a")], false⟩, [("a", ⟨"a"⟩)]⟩ "a" rfl

/-- Claim C6, counterexample: `Reset` — an operation that is neither a
`Delete` for the identifier nor a process restart — removes the installed
hot-tier entry for "a". -/
theorem reset_evicts_hot_entry :
    alookup "a"
        (⟨"mcp:session:", ⟨[], false⟩, [("a", ⟨"a"⟩)]⟩ :
          GStoreState).activeSessions = some ⟨"a"⟩ ∧
    (gresetOp ⟨"mcp:session:", ⟨[], false⟩, [("a", ⟨"a"⟩)]⟩).1 = .ok ∧
    alookup "a"
        (gresetOp
          ⟨"mcp:session:", ⟨[], false⟩, [("a", ⟨"a"⟩)]⟩).2.activeSessions
      = none := by
  refine ⟨rfl, rfl, rfl⟩

/-- Claim C6, amended: a hot-tier entry, once installed, is removed only by
`Delete` for that identifier, by `Reset` (which clears the entire hot tier),
or by process restart. Every other operation — `Load`/`Store` of the
`SessionState` variant, `Get`/`Set`/`All` of the generic variant — preserves
every installed hot-tier entry, `Delete` preserves the entries of all other
identifiers, and `Reset` empties the map. -/
theorem hot_entry_evicted_only_by_delete_or_reset
    (st : StoreState) (gst : GStoreState) (connectOk : Bool)
    (sessionID x : String) (s : SessionState) (t : Transport)
    (hx : (alookup x st.activeSessions).isSome = true)
    (hgx : (alookup x gst.activeSessions).isSome = true) :
    ((alookup x (loadOp sessionID st).2.activeSessions).isSome = true) ∧
    ((alookup x (storeOp sessionID s st).2.activeSessions).isSome = true) ∧
    (x ≠ sessionID →
      (alookup x (deleteOp sessionID st).2.activeSessions).isSome = true) ∧
    ((alookup x (ggetOp connectOk sessionID gst).2.activeSessions).isSome = true) ∧
    ((alookup x (gsetOp sessionID t gst).2.activeSessions).isSome = true) ∧
    ((alookup x (gallOp gst).2.activeSessions).isSome = true) ∧
    (x ≠ sessionID →
      (alookup x (gdeleteOp sessionID gst).2.activeSessions).isSome = true) ∧
    ((gresetOp gst).2.activeSessions = []) := by
  refine ⟨?_, ?_, ?_, ?_, ?_, ?_, ?_, rfl⟩
  · cases h1 : alookup sessionID st.activeSessions with
    | some s' => simp [loadOp, h1, hx]
    | none =>
      cases h2 : redisGet (getKey st sessionID) st.redis with
      | err => simp [loadOp, h1, h2, hx]
      | absent => simp [loadOp, h1, h2, hx]
      | found d =>
        simp [loadOp, h1, h2, decodeSessionState]
        exact alookup_ainsert_isSome _ _ _ _ hx
  · cases h1 : redisSet (getKey st sessionID) (encodeSessionState s) st.redis with
    | none => simp [storeOp, h1, hx]
    | some r =>
      simp [storeOp, h1]
      exact alookup_ainsert_isSome _ _ _ _ hx
  · intro hne
    cases h1 : redisDel (getKey st sessionID) st.redis with
    | none => simp [deleteOp, h1, hx]
    | some r =>
      simp [deleteOp, h1, alookup_aerase_ne (Ne.symm hne), hx]
  · cases h1 : alookup sessionID gst.activeSessions with
    | some t' => simp [ggetOp, h1, hgx]
    | none =>
      cases h2 : redisGet (gst.pre ++ sessionID) gst.redis with
      | err => simp [ggetOp, h1, h2, hgx]
      | absent => simp [ggetOp, h1, h2, hgx]
      | found d =>
        cases hc : connectOk with
        | false => simp [ggetOp, h1, h2, hc, decodeSessionData, hgx]
        | true =>
          simp [ggetOp, h1, h2, hc, decodeSessionData]
          exact alookup_ainsert_isSome _ _ _ _ hgx
  · cases h1 : redisSet (gst.pre ++ sessionID) (encodeSessionData sessionID) gst.redis with
    | none => simp [gsetOp, h1, hgx]
    | some r =>
      simp [gsetOp, h1]
      exact alookup_ainsert_isSome _ _ _ _ hgx
  · simpa [gallOp] using hgx
  · intro hne
    cases h1 : redisDel (gst.pre ++ sessionID) gst.redis with
    | none => simp [gdeleteOp, h1, hgx]
    | some r =>
      simp [gdeleteOp, h1, alookup_aerase_ne (Ne.symm hne), hgx]

/-- Witness for the amended C6 theorem: entry "a" survives every
non-evicting operation applied at identifier "b", and `Reset` clears the
map. -/
theorem hot_entry_evicted_only_by_delete_or_reset_witness :
    ((alookup "a"
        (loadOp "b"
          ⟨"mcp:session:", ⟨[], false⟩, [("a", ⟨"a"⟩)]⟩).2.activeSessions).isSome
      = true) ∧
    ((alookup "a"
        (storeOp "b" ⟨"v"⟩
          ⟨"mcp:session:", ⟨[], false⟩, [("a", ⟨"a"⟩)]⟩).2.activeSessions).isSome
      = true) ∧
    ((alookup "a"
        (deleteOp "b"
          ⟨"mcp:session:", ⟨[], false⟩, [("a", ⟨"a"⟩)]⟩).2.activeSessions).isSome
      = true) ∧
    ((alookup "a"
        (ggetOp true "b"
          ⟨"mcp:session:", ⟨[], false⟩, [("a", ⟨"a"⟩)]⟩).2.activeSessions).isSome
      = true) ∧
    ((alookup "a"
        (gsetOp "b" ⟨"v"⟩
          ⟨"mcp:session:", ⟨[], false⟩, [("a", ⟨"a"⟩)]⟩).2.activeSessions).isSome
      = true) ∧
    ((alookup "a"
        (gallOp
          ⟨"mcp:session:", ⟨[], false⟩, [("a", ⟨"a"⟩)]⟩).2.activeSessions).isSome
      = true) ∧
    ((alookup "a"
        (gdeleteOp "b"
          ⟨"mcp:session:", ⟨[], false⟩, [("a", ⟨"a"⟩)]⟩).2.activeSessions).isSome
      = true) ∧
    ((gresetOp
        (⟨"mcp:session:", ⟨[], false⟩, [("a", ⟨"a"⟩)]⟩ :
          GStoreState)).2.activeSessions = []) :=
  have h := hot_entry_evicted_only_by_delete_or_reset
    ⟨"mcp:session:", ⟨[], false⟩, [("a", ⟨"a"⟩)]⟩
    ⟨"mcp:session:", ⟨[], false⟩, [("a", ⟨"a"⟩)]⟩
    true "b" "a" ⟨"v"⟩ ⟨"v"⟩ (by decide) (by decide)
  ⟨h.1, h.2.1, h.2.2.1 (by decide), h.2.2.2.1, h.2.2.2.2.1,
   h.2.2.2.2.2.1, h.2.2.2.2.2.2.1 (by decide), h.2.2.2.2.2.2.2⟩

/-- Claim C7: the hot-tier map read in `Exists` is performed while holding
no lock at all, violating the discipline that every read-only lookup holds
the shared mode; all other hot-tier accesses of the transport variant
(`Get`, `Set`, `Delete`, `Range`) follow the discipline. -/
theorem exists_hot_check_unlocked :
    existsHotAccesses.all accessDisciplined = false ∧
    getHotAccesses.all accessDisciplined = true ∧
    setHotAccesses.all accessDisciplined = true ∧
    deleteHotAccesses.all accessDisciplined = true ∧
    rangeHotAccesses.all accessDisciplined = true := by
  decide

/-- Claim C8: with the durable store reachable, construction from any
configuration whose server reference is nil fails with the configuration
error naming the missing MCP server reference, and no store value is
returned. -/
theorem construct_nil_owner_fails_with_configuration_error
    (config : StoreConfig) (h : config.serverPresent = false) :
    newRedisSessionStore true config
      = .error (.configurationError "MCP server reference is required") := by
  simp [newRedisSessionStore, h]

/-- Witness for the C8 theorem at the all-defaults nil-owner
configuration. -/
theorem construct_nil_owner_fails_with_configuration_error_witness :
    newRedisSessionStore true ⟨"", "", 0, "", 0, false⟩
      = .error (.configurationError "MCP server reference is required") :=
  construct_nil_owner_fails_with_configuration_error ⟨"", "", 0, "", 0, false⟩ rfl

/-- Claim C9: successful construction uses "localhost:6379" when the
address is unset and the given address otherwise, "mcp:session:" when the
prefix is unset and the given prefix otherwise, one hour when the TTL is
unset and the given TTL otherwise, and passes the password and database
index through unchanged, starting from an empty hot tier. -/
theorem construct_applies_documented_defaults
    (config : StoreConfig) (hs : config.serverPresent = true) :
    newRedisSessionStore true config
      = .ok { addr := if config.addr = "" then "localhost:6379" else config.addr,
              password := config.password, db := config.db,
              pre := if config.pre = "" then "mcp:session:" else config.pre,
              ttl := if config.ttl = 0 then hourNs else config.ttl,
              activeSessions := [] } := by
  simp [newRedisSessionStore, hs]

/-- Witness for the C9 theorem: unset address gets the default, while the
set prefix, TTL, password and database index are used unchanged. -/
theorem construct_applies_documented_defaults_witness :
    newRedisSessionStore true ⟨"", "pw", 2, "custom:", 5, true⟩
      = .ok ⟨"localhost:6379", "pw", 2, "custom:", 5, []⟩ := by
  have h := construct_applies_documented_defaults ⟨"", "pw", 2, "custom:", 5, true⟩ rfl
  simpa using h

/-- Claim C10: with the durable store unreachable, construction from a
nil-owner configuration fails with the connection error — the liveness
probe runs before the owner validation — and in particular never with the
configuration error. -/
theorem probe_precedes_owner_validation
    (config : StoreConfig) (h : config.serverPresent = false) :
    newRedisSessionStore false config
      = .error (.connectionError "failed to connect to Redis") ∧
    ∀ msg : String,
      newRedisSessionStore false config
        ≠ .error (.configurationError msg) := by
  constructor
  · simp [newRedisSessionStore]
  · intro msg
    simp [newRedisSessionStore]

/-- Witness for the C10 theorem at the all-defaults nil-owner
configuration with the store unreachable. -/
theorem probe_precedes_owner_validation_witness :
    newRedisSessionStore false ⟨"", "", 0, "", 0, false⟩
      = .error (.connectionError "failed to connect to Redis") ∧
    newRedisSessionStore false ⟨"", "", 0, "", 0, false⟩
      ≠ .error (.configurationError "MCP server reference is required") :=
  ⟨(probe_precedes_owner_validation ⟨"", "", 0, "", 0, false⟩ rfl).1,
   (probe_precedes_owner_validation ⟨"", "", 0, "", 0, false⟩ rfl).2
     "MCP server reference is required"⟩
